import Mathlib

/-!
Verification of the mcp-webresearch server (src/index.ts and src/session.ts,
with the repository's duplicated variant modules consulted where the claims
cite them).  JavaScript strings are modelled as Lean `String`s (sequences of
characters); JavaScript `undefined` is modelled by `Option.none`; thrown
errors are modelled with `Except`.
-/

deriving instance DecidableEq for Except

namespace WebResearch

/-! ## Configuration constants (src/index.ts lines 148-155) -/

def MAX_RESULTS_PER_SESSION : Nat := 100
def MAX_CONTENT_LENGTH : Nat := 100000
def MAX_RETRIES : Nat := 3
def RETRY_DELAY : Nat := 1000
def MAX_SCREENSHOT_DIMENSION : Nat := 10000
def MIN_SCREENSHOT_DIMENSION : Nat := 100

/-! ## Retry executor (src/index.ts `withRetry`, lines 158-179)

The operation is modelled as a function from the attempt index to an
`Except` outcome, so one model covers operations that fail for a while and
then succeed.  The trace records the result, the number of invocations of
the operation, and the list of delays waited between attempts.  The thrown
value has type `Option ε`: `some e` is a caught error `e` stored in
`lastError`, while `none` models the JavaScript `undefined` that
`throw lastError!` raises when the loop body never ran. -/

structure RetryOutcome (ε α : Type) where
  result : Except (Option ε) α
  calls : Nat
  delays : List Nat

/-- One pass of the `for (let i = 0; i < retries; i++)` loop: `i` is the
current attempt index, the second argument the number of remaining
iterations, the third the current `lastError`.  A delay is recorded
exactly when `i < retries - 1`, i.e. when further iterations remain. -/
def withRetryCore {ε α : Type} (op : Nat → Except ε α) (delay : Nat) :
    Nat → Nat → Option ε → RetryOutcome ε α
  | _, 0, last => ⟨.error last, 0, []⟩
  | i, r + 1, _ =>
    match op i with
    | .ok a => ⟨.ok a, 1, []⟩
    | .error e =>
      let rest := withRetryCore op delay (i + 1) r (some e)
      ⟨rest.result, rest.calls + 1, if 0 < r then delay :: rest.delays else rest.delays⟩

/-- `withRetry(operation, retries, delay)`.  `retries` is an integer, as the
JavaScript parameter is an arbitrary number; the loop runs
`max retries 0` times.  If the loop never produces a return, the
uninitialized `lastError` (`none`) is thrown. -/
def withRetry {ε α : Type} (op : Nat → Except ε α) (retries : Int) (delay : Nat) :
    RetryOutcome ε α :=
  withRetryCore op delay 0 retries.toNat none

/-! ## JavaScript string primitives used by the source

`strContains s pat` models `s.includes(pat)`, `strToLower` models
`s.toLowerCase()` (on the ASCII range the source uses), `collapseWs`/`trimWs`
model `.replace(/\s+/g, ' ')` and `.trim()`. -/

/-- Characters matched by the JavaScript `\s` class, restricted to the ASCII
whitespace the pages in question contain. -/
def isJsWs (c : Char) : Bool :=
  c == ' ' || c == '\t' || c == '\n' || c == '\r' || c == '\x0b' || c == '\x0c'

/-- `replace(/\s+/g, ' ')`: every maximal run of whitespace becomes a single
space.  The flag records whether the scan is inside a whitespace run whose
single replacement space was already emitted. -/
def collapseWsAux : Bool → List Char → List Char
  | _, [] => []
  | inRun, c :: rest =>
    if isJsWs c then
      if inRun then collapseWsAux true rest
      else ' ' :: collapseWsAux true rest
    else c :: collapseWsAux false rest

def collapseWs (cs : List Char) : List Char := collapseWsAux false cs

/-- `trim()`: strip leading and trailing whitespace. -/
def trimWs (cs : List Char) : List Char :=
  ((cs.dropWhile isJsWs).reverse.dropWhile isJsWs).reverse

/-- `.replace(/\s+/g, ' ').trim()` as applied to `meaningfulText` in
`safePageNavigation` (src/index.ts lines 272-274). -/
def normalizeWs (s : String) : String :=
  String.mk (trimWs (collapseWs s.data))

/-- Number of maximal non-whitespace runs, counted with a flag recording
whether the scan is inside a word that has already been counted. -/
def countWordRunsAux : Bool → List Char → Nat
  | _, [] => 0
  | inWord, c :: rest =>
    if isJsWs c then countWordRunsAux false rest
    else (if inWord then 0 else 1) + countWordRunsAux true rest

/-- Number of maximal non-whitespace runs: the whitespace-normalized visible
word count the specification speaks about. -/
def countWordRuns (cs : List Char) : Nat := countWordRunsAux false cs

def wordCount (s : String) : Nat := countWordRuns s.data

/-- `s.includes(pat)`. -/
def strContains (s pat : String) : Bool := decide (pat.data <:+: s.data)

/-- `s.toLowerCase()` (ASCII). -/
def strToLower (s : String) : String := String.mk (s.data.map Char.toLower)

/-! ## Session store (src/index.ts lines 67-81 and 181-216; src/session.ts)

`addResult` in src/index.ts first truncates oversized content, then runs the
FIFO eviction and pushes the result; src/session.ts `addResult` has the same
shift/push discipline without the truncation step, which the spec assigns to
the caller.  Timestamps (`new Date().toISOString()`) are passed in as an
explicit `now` argument. -/

structure ResearchResult where
  url : String
  title : String
  content : String
  timestamp : String
  screenshot : Option String := none
deriving DecidableEq, Repr

structure ResearchSession where
  query : String
  results : List ResearchResult
  lastUpdated : String
deriving DecidableEq, Repr

/-- Lines 192-195: `if (result.content && result.content.length > MAX_CONTENT_LENGTH)
result.content = result.content.substring(0, MAX_CONTENT_LENGTH) + '... (content truncated)'`.
The `result.content &&` truthiness test makes the branch require a non-empty
string. -/
def truncateContent (c : String) : String :=
  if c ≠ "" ∧ MAX_CONTENT_LENGTH < c.length then
    String.mk (c.data.take MAX_CONTENT_LENGTH) ++ "... (content truncated)"
  else c

/-- The processed result actually stored by `addResult`. -/
def storedResult (r : ResearchResult) : ResearchResult :=
  { r with content := truncateContent r.content }

/-- `addResult` (src/index.ts lines 182-216): initialize the session if
absent, truncate oversized content, evict the oldest result when the cap is
reached, push the new result and update the timestamp. -/
def addResult (s : Option ResearchSession) (r : ResearchResult) (now : String) :
    ResearchSession :=
  let sess := s.getD { query := "Research Session", results := [], lastUpdated := now }
  let results :=
    if MAX_RESULTS_PER_SESSION ≤ sess.results.length then sess.results.tail
    else sess.results
  { sess with results := results ++ [storedResult r], lastUpdated := now }

/-- A sequence of `addResult` calls, each with its own timestamp. -/
def addMany (s : Option ResearchSession) : List (ResearchResult × String) → Option ResearchSession
  | [] => s
  | (r, t) :: rest => addMany (some (addResult s r t)) rest

/-- The results list of an optional session (empty when no session exists). -/
def sessionResults (s : Option ResearchSession) : List ResearchResult :=
  (s.map ResearchSession.results).getD []

/-! ## Navigation safety layer (src/index.ts `safePageNavigation`, lines 218-307)

The browser environment is modelled as a snapshot of what the function
observes: the outcome of `page.goto` (a navigation timeout, a `null`
response, or a response with a status code and status text), the set of DOM
ids present (what `document.querySelector('#id')` can find), the elements
under `document.body` with their tag names and text content, and the
document title.  The `waitForSelector('body')` step catches its own timeout
internally and continues either way, so it does not appear in the outcome. -/

inductive GotoOutcome where
  | timeout
  | noResponse
  | resp (status : Nat) (statusText : String)
deriving DecidableEq, Repr

structure DomElement where
  tag : String
  text : String
deriving DecidableEq, Repr

structure PageEnv where
  gotoOutcome : GotoOutcome
  ids : List String
  bodyElements : List DomElement
  title : String
deriving DecidableEq, Repr

/-- The ids probed by the bot-protection selectors
`['#challenge-running', '#cf-challenge-running', '#px-captcha',
'#ddos-protection', '#waf-challenge-html']` (lines 251-257). -/
def botProtectionIds : List String :=
  ["challenge-running", "cf-challenge-running", "px-captcha", "ddos-protection",
   "waf-challenge-html"]

def hasBotProtection (p : PageEnv) : Bool :=
  botProtectionIds.any (fun sel => p.ids.contains sel)

/-- `Array.prototype.join(' ')`: the pieces separated by single spaces. -/
def joinSpace : List String → String
  | [] => ""
  | [s] => s
  | s :: rest => s ++ " " ++ joinSpace rest

/-- Lines 265-274: join the text of every element under `body` (empty for
`SCRIPT`/`STYLE`/`NOSCRIPT`) with spaces, collapse whitespace, trim. -/
def meaningfulTextOf (p : PageEnv) : String :=
  normalizeWs (joinSpace
    (p.bodyElements.map fun e =>
      if e.tag = "SCRIPT" ∨ e.tag = "STYLE" ∨ e.tag = "NOSCRIPT" then "" else e.text))

/-- Line 294. -/
def suspiciousTitles : List String :=
  ["security check", "ddos protection", "please wait", "just a moment",
   "attention required"]

def hasSuspiciousTitle (p : PageEnv) : Bool :=
  suspiciousTitles.any (fun t => strContains (strToLower p.title) t)

/-- Lines 222-236: the initial `page.goto`.  A timeout raises the driver's
navigation-timeout error; a `null` response only logs a warning; a response
with status ≥ 400 raises `HTTP ${status}: ${statusText}`. -/
def gotoCheck : GotoOutcome → Except String Unit
  | .timeout => .error "Navigation timeout of 15000 ms exceeded"
  | .noResponse => .ok ()
  | .resp status statusText =>
    if 400 ≤ status then .error ("HTTP " ++ toString status ++ ": " ++ statusText)
    else .ok ()

/-- Lines 283-297: bot-protection check, then the content-quality gate
`!meaningfulText || meaningfulText.length < 1000`, then the suspicious-title
check. -/
def contentChecks (p : PageEnv) : Except String Unit :=
  if hasBotProtection p then
    .error "Bot protection detected (Cloudflare or similar service)"
  else if meaningfulTextOf p = "" ∨ (meaningfulTextOf p).length < 1000 then
    .error "Page appears to be empty or has no meaningful content"
  else if hasSuspiciousTitle p then
    .error "Suspicious page title indicates possible bot protection"
  else .ok ()

/-- The body of the `try` block of `safePageNavigation`. -/
def navPipeline (p : PageEnv) : Except String Unit :=
  match gotoCheck p.gotoOutcome with
  | .error e => .error e
  | .ok _ => contentChecks p

/-- `safePageNavigation` (lines 219-307): run the pipeline; in the `catch`
block, an error whose message includes `'timeout'` is swallowed (the
function returns normally), every other error is re-thrown wrapped as
`Navigation failed: ...`. -/
def safePageNavigation (p : PageEnv) : Except String Unit :=
  match navPipeline p with
  | .ok _ => .ok ()
  | .error msg =>
    if strContains msg "timeout" then .ok ()
    else .error ("Navigation failed: " ++ msg)

/-! ## URL validation and the visit_page tool (src/index.ts lines 670-682 and 817-898) -/

/-- Whether a character may occur in a URL scheme. -/
def schemeChar (c : Char) : Bool :=
  c.isAlpha || c.isDigit || c == '+' || c == '-' || c == '.'

/-- Protocol extraction of the platform `new URL(...)` constructor: a URL
string parses only if it starts with a letter followed by scheme characters
and a colon; the resulting `protocol` property is the lowercased scheme with
the trailing colon.  `none` models the constructor throwing. -/
def parseUrlProtocol (s : String) : Option String :=
  match s.data with
  | [] => none
  | c :: _ =>
    if c.isAlpha then
      let scheme := s.data.takeWhile schemeChar
      match s.data.drop scheme.length with
      | ':' :: _ => some (String.mk (scheme.map Char.toLower) ++ ":")
      | _ => none
    else none

/-- `isValidUrl` (lines 671-682): parse the URL and accept exactly the
`http:` and `https:` protocols; a parse failure yields `false`. -/
def isValidUrl (urlString : String) : Bool :=
  match parseUrlProtocol urlString with
  | some protocol => protocol == "http:" || protocol == "https:"
  | none => false

/-- Outcome of the `visit_page` tool handler: the tool result (an error
message with `isError: true`, or the stored page result) together with the
number of times `safePageNavigation` was invoked. -/
structure VisitOutcome where
  result : Except String ResearchResult
  navigationCalls : Nat

/-- The `visit_page` branch of the tool dispatcher (lines 817-898): the URL
is validated first and an invalid URL returns an error result immediately;
only then is the navigate-and-extract operation run under
`withRetry` (each invocation of the operation performs exactly one
`safePageNavigation` call, so the retry trace counts navigation calls).
The per-attempt operation is abstracted as `op`, as it drives the browser. -/
def visitPageTool (url : String) (op : Nat → Except String ResearchResult) :
    VisitOutcome :=
  if !isValidUrl url then
    { result := .error ("Invalid URL: " ++ url ++
        ". Only http and https protocols are supported."),
      navigationCalls := 0 }
  else
    let t := withRetry op (MAX_RETRIES : Nat) RETRY_DELAY
    { result :=
        match t.result with
        | .ok r => .ok r
        | .error e => .error ("Failed to visit page: " ++
            (match e with | some m => m | none => "undefined")),
      navigationCalls := t.calls }

/-! ## Screenshot budgeting (src/index.ts `takeScreenshotWithSizeLimit`,
lines 310-438)

The observable steps are modelled as a trace.  The pixel-dimension guard
(lines 318-327) is translated in full; the capture and the float-scaled
resize loop (lines 329-431) talk to the browser and the image codec, so the
phase after a capture is abstracted as a `compress` parameter that consumes
the capture and produces the remaining outcome and trace. -/

inductive ShotStep where
  | capture
  | resize
deriving DecidableEq, Repr

/-- `takeScreenshotWithSizeLimit`: clamp the scroll extent to
`MAX_SCREENSHOT_DIMENSION`, fail fast when either clamped dimension is below
`MIN_SCREENSHOT_DIMENSION`, otherwise set the viewport, take the full-page
capture, return it unchanged when `ceil(len * 0.75)` already fits the byte
budget, and otherwise hand the capture to the resize/recompress phase. -/
def takeScreenshotWithSizeLimit
    (scrollWidth scrollHeight : Nat) (screenshot : String)
    (compress : String → Except String String × List ShotStep)
    (maxSizeBytes : Nat := 500000) :
    Except String String × List ShotStep :=
  let width := min scrollWidth MAX_SCREENSHOT_DIMENSION
  let height := min scrollHeight MAX_SCREENSHOT_DIMENSION
  if width < MIN_SCREENSHOT_DIMENSION ∨ height < MIN_SCREENSHOT_DIMENSION then
    (.error "Page dimensions too small for screenshot", [])
  else
    let approximateBytes := (3 * screenshot.length + 3) / 4
    if approximateBytes ≤ maxSizeBytes then (.ok screenshot, [ShotStep.capture])
    else
      let rest := compress screenshot
      (rest.1, ShotStep.capture :: rest.2)

/-! ## Resource listing and reading (src/index.ts lines 461-488 and 491-557)

The listing handler numbers screenshot URIs over the *filtered* list of
screenshot-bearing results; the read handler indexes the *full* results
list. -/

def hasShot (r : ResearchResult) : Bool := r.screenshot.isSome

/-- The results the listing handler enumerates: URI
`research://screenshots/{i}` is generated for the `i`-th element of this
filtered list (lines 477-484). -/
def listedShots (rs : List ResearchResult) : List ResearchResult :=
  rs.filter hasShot

inductive ReadShotError where
  | noSession
  | outOfBounds
  | noScreenshot
deriving DecidableEq, Repr

/-- The `research://screenshots/{index}` branch of the read handler
(lines 522-557): bounds-check the index against the full results list, then
require a screenshot on the result at that index. -/
def readScreenshot (sess : Option ResearchSession) (index : Nat) :
    Except ReadShotError String :=
  match sess with
  | none => .error .noSession
  | some s =>
    if h : index < s.results.length then
      match (s.results.get ⟨index, h⟩).screenshot with
      | some shot => .ok shot
      | none => .error .noScreenshot
    else .error .outOfBounds

/-- Position in the full results list of the `i`-th screenshot-bearing
result, i.e. of the result that listing URI `research://screenshots/{i}`
advertises. -/
def shotPos (rs : List ResearchResult) (i : Nat) : Nat :=
  match rs, i with
  | [], _ => 0
  | r :: rest, i =>
    if hasShot r then
      match i with
      | 0 => 0
      | i' + 1 => shotPos rest i' + 1
    else shotPos rest i + 1

/-- The list-level content of one `addResult` step: evict the head when the
cap is reached, then push. -/
def fifoStep (v : List ResearchResult) (p : ResearchResult) : List ResearchResult :=
  (if MAX_RESULTS_PER_SESSION ≤ v.length then v.tail else v) ++ [p]

/-- The list-level content of a sequence of `addResult` steps. -/
def fifoMany (v : List ResearchResult) : List ResearchResult → List ResearchResult
  | [] => v
  | p :: ps => fifoMany (fifoStep v p) ps

/-! ## Concrete inputs used to instantiate the theorems -/

/-- An operation that fails on its first two attempts and succeeds on the
third. -/
def opFailTwice : Nat → Except String Nat :=
  fun i => if i = 2 then .ok 7 else .error "boom"

/-- An operation that fails on every attempt, with a distinguishable final
error. -/
def opAlwaysFail : Nat → Except String Nat :=
  fun i => .error (if i = 2 then "last" else "early")

/-- An operation that would succeed immediately if it were ever invoked. -/
def opReady : Nat → Except String Nat := fun _ => .ok 1

/-- A navigate-and-extract operation for the visit_page model. -/
def opNav : Nat → Except String ResearchResult := fun _ => .error "navigation failed"

def sampleResultA : ResearchResult :=
  { url := "https://a.example", title := "A", content := "alpha", timestamp := "t1" }

def sampleResultB : ResearchResult :=
  { url := "https://b.example", title := "B", content := "beta", timestamp := "t2" }

def sampleAdds : List (ResearchResult × String) :=
  [(sampleResultA, "t1"), (sampleResultB, "t2")]

/-- A content string one character above the cap. -/
def bigContent : String := String.mk (List.replicate 100001 'a')

def bigResult : ResearchResult :=
  { url := "https://big.example", title := "Big", content := bigContent, timestamp := "t3" }

/-- A page whose visible text is a single 1000-character word. -/
def longWordPage : PageEnv :=
  { gotoOutcome := .resp 200 "OK"
    ids := []
    bodyElements := [{ tag := "P", text := String.mk (List.replicate 1000 'a') }]
    title := "Example" }

/-- A page whose navigation gets an HTTP 504 whose status text happens to
contain the substring "timeout". -/
def gatewayTimeoutPage : PageEnv :=
  { gotoOutcome := .resp 504 "Gateway timeout", ids := [], bodyElements := [], title := "" }

/-- A page whose initial navigation times out. -/
def timeoutPage : PageEnv :=
  { gotoOutcome := .timeout, ids := [], bodyElements := [], title := "" }

/-- A loaded page with an empty body. -/
def emptyBodyPage : PageEnv :=
  { gotoOutcome := .resp 200 "OK", ids := [], bodyElements := [], title := "" }

/-- A loaded page carrying the Cloudflare challenge marker. -/
def cfChallengePage : PageEnv :=
  { gotoOutcome := .noResponse, ids := ["cf-challenge-running"], bodyElements := [],
    title := "" }

/-- A compress phase that performs one resize, for instantiating the
screenshot model. -/
def compressOnce : String → Except String String × List ShotStep :=
  fun s => (.ok s, [ShotStep.resize])

/-- A session whose first result has no screenshot and whose second does. -/
def mixedSession : ResearchSession :=
  { query := "q"
    results :=
      [{ url := "https://one.example", title := "One", content := "c1", timestamp := "t1" },
       { url := "https://two.example", title := "Two", content := "c2", timestamp := "t2",
         screenshot := some "img2" }]
    lastUpdated := "t2" }

/-! ## Theorems -/

/-- C3: for retry parameters (3 attempts, fixed delay `d`): if the operation
fails twice then succeeds, `withRetry` returns the success value and invokes
the operation exactly 3 times; if the operation always fails, `withRetry`
invokes it exactly 3 times, waits the flat (non-exponential) delay `d`
between consecutive attempts, and re-raises the last observed failure
unchanged (the result is the raw `e2`, not a wrapped error). -/
theorem withRetry_three_attempts {ε α : Type} (op : Nat → Except ε α) (d : Nat) :
    (∀ (e0 e1 : ε) (a : α), op 0 = .error e0 → op 1 = .error e1 → op 2 = .ok a →
      withRetry op 3 d = ⟨.ok a, 3, [d, d]⟩)
    ∧ (∀ e0 e1 e2 : ε, op 0 = .error e0 → op 1 = .error e1 → op 2 = .error e2 →
      withRetry op 3 d = ⟨.error (some e2), 3, [d, d]⟩) := by
  constructor
  · intro e0 e1 a h0 h1 h2
    simp [withRetry, withRetryCore, h0, h1, h2]
  · intro e0 e1 e2 h0 h1 h2
    simp [withRetry, withRetryCore, h0, h1, h2]

/-- Witness for C3: both retry behaviors at concrete operations with a
10-unit delay. -/
theorem withRetry_three_attempts_witness :
    withRetry opFailTwice 3 10 = ⟨.ok 7, 3, [10, 10]⟩
    ∧ withRetry opAlwaysFail 3 10 = ⟨.error (some "last"), 3, [10, 10]⟩ :=
  ⟨(withRetry_three_attempts opFailTwice 10).1 "boom" "boom" 7 rfl rfl rfl,
   (withRetry_three_attempts opAlwaysFail 10).2 "early" "early" "last" rfl rfl rfl⟩

/-- C10: with a retries value ≤ 0 the attempt loop never runs, so the
operation is never invoked and `withRetry` throws the uninitialized
`lastError` — the JavaScript `undefined` (`none`), not an `Error`. -/
theorem withRetry_nonpositive_retries {ε α : Type} (op : Nat → Except ε α)
    (retries : Int) (delay : Nat) (h : retries ≤ 0) :
    withRetry op retries delay = ⟨.error none, 0, []⟩ := by
  simp [withRetry, Int.toNat_of_nonpos h, withRetryCore]

/-- Witness for C10: with `retries = -1` an always-ready operation is never
invoked and the thrown value is `undefined`. -/
theorem withRetry_nonpositive_retries_witness :
    withRetry opReady (-1) 5 = ⟨.error none, 0, []⟩ :=
  withRetry_nonpositive_retries opReady (-1) 5 (by decide)

/-- C8: when either clamped page dimension is below
`MIN_SCREENSHOT_DIMENSION`, the bounded screenshot capture fails fast with
the too-small error, with an empty step trace: no capture is taken and no
resize is attempted. -/
theorem screenshot_too_small_fails_fast
    (scrollWidth scrollHeight : Nat) (screenshot : String)
    (compress : String → Except String String × List ShotStep) (maxSizeBytes : Nat)
    (h : min scrollWidth MAX_SCREENSHOT_DIMENSION < MIN_SCREENSHOT_DIMENSION ∨
         min scrollHeight MAX_SCREENSHOT_DIMENSION < MIN_SCREENSHOT_DIMENSION) :
    takeScreenshotWithSizeLimit scrollWidth scrollHeight screenshot compress maxSizeBytes =
      (.error "Page dimensions too small for screenshot", []) := by
  simp only [takeScreenshotWithSizeLimit]
  rw [if_pos h]

/-- Witness for C8: a 50×50 page fails fast with no capture and no resize. -/
theorem screenshot_too_small_fails_fast_witness :
    takeScreenshotWithSizeLimit 50 50 "shot" compressOnce 500000 =
      (.error "Page dimensions too small for screenshot", []) :=
  screenshot_too_small_fails_fast 50 50 "shot" compressOnce 500000 (by decide)

/-- C5: for every URL string whose parsed protocol is not `http:` or
`https:` (including strings that do not parse as URLs at all), the
visit_page tool returns the validation error immediately and the
navigation operation is invoked zero times. -/
theorem visitPage_rejects_non_http (url : String)
    (op : Nat → Except String ResearchResult)
    (h : ∀ pr, parseUrlProtocol url = some pr → pr ≠ "http:" ∧ pr ≠ "https:") :
    visitPageTool url op =
      { result := .error ("Invalid URL: " ++ url ++
          ". Only http and https protocols are supported.")
        navigationCalls := 0 } := by
  have hv : isValidUrl url = false := by
    unfold isValidUrl
    cases hp : parseUrlProtocol url with
    | none => rfl
    | some pr =>
      have := h pr hp
      simp only [Bool.or_eq_false_iff, beq_eq_false_iff_ne]
      exact this
  simp [visitPageTool, hv]

/-- Witness for C5: `file:///etc/passwd` parses with protocol `file:` and is
rejected before any navigation. -/
theorem visitPage_rejects_non_http_witness :
    visitPageTool "file:///etc/passwd" opNav =
      { result := .error ("Invalid URL: " ++ "file:///etc/passwd" ++
          ". Only http and https protocols are supported.")
        navigationCalls := 0 } :=
  visitPage_rejects_non_http "file:///etc/passwd" opNav (by
    intro pr hp
    have hfile : parseUrlProtocol "file:///etc/passwd" = some "file:" := by decide
    rw [hfile] at hp
    cases hp
    exact ⟨by decide, by decide⟩)

/-- `addMany` acts on the results list as the pure FIFO fold. -/
lemma sessionResults_addMany (rs : List (ResearchResult × String)) :
    ∀ s : Option ResearchSession,
      sessionResults (addMany s rs) =
        fifoMany (sessionResults s) (rs.map fun p => storedResult p.1) := by
  induction rs with
  | nil => intro s; rfl
  | cons pr rest ih =>
    intro s
    obtain ⟨r, t⟩ := pr
    rw [addMany, ih]
    simp only [List.map_cons, fifoMany]
    congr 1
    cases s <;> rfl

/-- Characterization of the FIFO fold: starting from a list within the cap,
the final contents are the suffix of the concatenated stream that fits the
cap. -/
lemma fifoMany_eq_drop (ps : List ResearchResult) :
    ∀ v : List ResearchResult, v.length ≤ MAX_RESULTS_PER_SESSION →
      fifoMany v ps = (v ++ ps).drop (v.length + ps.length - MAX_RESULTS_PER_SESSION) := by
  induction ps with
  | nil =>
    intro v h
    have hz : v.length - MAX_RESULTS_PER_SESSION = 0 := by omega
    simp [fifoMany, hz]
  | cons p ps ih =>
    intro v h
    rw [fifoMany]
    by_cases hc : MAX_RESULTS_PER_SESSION ≤ v.length
    · have hv : v.length = MAX_RESULTS_PER_SESSION := le_antisymm h hc
      have hvne : v ≠ [] := by
        intro e
        rw [e] at hv
        simp [MAX_RESULTS_PER_SESSION] at hv
      obtain ⟨a, l, rfl⟩ := List.exists_cons_of_ne_nil hvne
      have hstep : fifoStep (a :: l) p = l ++ [p] := by
        unfold fifoStep
        rw [if_pos hc]
        rfl
      rw [hstep, ih (l ++ [p]) (by simp at hv ⊢; omega)]
      have hidx : (l ++ [p]).length + ps.length - MAX_RESULTS_PER_SESSION = ps.length := by
        simp at hv ⊢; omega
      have hidx' : (a :: l).length + (p :: ps).length - MAX_RESULTS_PER_SESSION
          = ps.length + 1 := by
        simp at hv ⊢; omega
      rw [hidx, hidx']
      simp only [List.append_assoc, List.singleton_append, List.cons_append,
        List.nil_append, List.drop_succ_cons]
    · have hstep : fifoStep v p = v ++ [p] := by
        unfold fifoStep
        rw [if_neg hc]
      rw [hstep, ih (v ++ [p]) (by simp; omega)]
      have hidx : (v ++ [p]).length + ps.length - MAX_RESULTS_PER_SESSION
          = v.length + (p :: ps).length - MAX_RESULTS_PER_SESSION := by
        simp; omega
      rw [hidx]
      simp only [List.append_assoc, List.singleton_append]

/-- C1: for every sequence of `addResult` calls starting from any session
state within the cap, the results list never exceeds
`MAX_RESULTS_PER_SESSION` (100); and starting from no session, the retained
results are exactly the most recent 100 processed results in their original
insertion order (the suffix of the input stream, oldest evicted first). -/
theorem session_results_capped_fifo (s : Option ResearchSession)
    (rs : List (ResearchResult × String))
    (h : (sessionResults s).length ≤ MAX_RESULTS_PER_SESSION) :
    (sessionResults (addMany s rs)).length ≤ MAX_RESULTS_PER_SESSION
    ∧ sessionResults (addMany none rs) =
        (rs.map fun p => storedResult p.1).drop (rs.length - MAX_RESULTS_PER_SESSION) := by
  constructor
  · rw [sessionResults_addMany, fifoMany_eq_drop _ _ h]
    simp only [List.length_drop, List.length_append, List.length_map]
    omega
  · rw [sessionResults_addMany,
      fifoMany_eq_drop _ _ (by simp [sessionResults] : (sessionResults none).length ≤ MAX_RESULTS_PER_SESSION)]
    simp [sessionResults]

/-- Witness for C1: the cap and FIFO characterization at a concrete
two-result stream from a fresh session. -/
theorem session_results_capped_fifo_witness :
    (sessionResults (addMany none sampleAdds)).length ≤ MAX_RESULTS_PER_SESSION
    ∧ sessionResults (addMany none sampleAdds) =
        (sampleAdds.map fun p => storedResult p.1).drop
          (sampleAdds.length - MAX_RESULTS_PER_SESSION) :=
  session_results_capped_fifo none sampleAdds (by decide)

/-- The content field of the stored result is the truncated content. -/
lemma storedResult_content (r : ResearchResult) :
    (storedResult r).content = truncateContent r.content := rfl

/-- The truncation branch, taken exactly when the content strictly exceeds
the cap. -/
lemma truncateContent_of_gt (c : String) (h : MAX_CONTENT_LENGTH < c.length) :
    truncateContent c =
      String.mk (c.data.take MAX_CONTENT_LENGTH) ++ "... (content truncated)" := by
  have hne : c ≠ "" := by
    intro he
    rw [he] at h
    have : ("" : String).length = 0 := by decide
    omega
  unfold truncateContent
  rw [if_pos ⟨hne, h⟩]

/-- Content within the cap is stored unchanged. -/
lemma truncateContent_of_le (c : String) (h : c.length ≤ MAX_CONTENT_LENGTH) :
    truncateContent c = c := by
  unfold truncateContent
  rw [if_neg (by rintro ⟨-, hlt⟩; omega)]

/-- The length of the truncation marker. -/
lemma marker_length : ("... (content truncated)" : String).length = 23 := by decide

/-- The stored content length never exceeds the cap plus the marker length. -/
lemma truncateContent_length_le (c : String) :
    (truncateContent c).length ≤ MAX_CONTENT_LENGTH + 23 := by
  by_cases h : MAX_CONTENT_LENGTH < c.length
  · rw [truncateContent_of_gt c h, String.length_append, marker_length]
    have h1 : (String.mk (c.data.take MAX_CONTENT_LENGTH)).length ≤ MAX_CONTENT_LENGTH := by
      show (c.data.take MAX_CONTENT_LENGTH).length ≤ MAX_CONTENT_LENGTH
      simp [List.length_take]
    omega
  · rw [truncateContent_of_le c (by omega)]
    omega

/-- C2 (amended): the result `addResult` stores carries the processed
content; when the incoming content exceeds the 100,000-unit cap the stored
content is the input truncated to the cap followed by the 23-character
`"... (content truncated)"` marker — so the stored length is bounded by
`MAX_CONTENT_LENGTH + 23`, not by the cap itself — and when the input does
not exceed the cap it is stored unchanged. -/
theorem addResult_content_truncation (s : Option ResearchSession)
    (r : ResearchResult) (now : String) :
    (addResult s r now).results.getLast? = some (storedResult r)
    ∧ (storedResult r).content.length ≤ MAX_CONTENT_LENGTH + 23
    ∧ (MAX_CONTENT_LENGTH < r.content.length →
        (storedResult r).content =
          String.mk (r.content.data.take MAX_CONTENT_LENGTH) ++ "... (content truncated)")
    ∧ (r.content.length ≤ MAX_CONTENT_LENGTH → (storedResult r).content = r.content) := by
  refine ⟨?_, ?_, ?_, ?_⟩
  · simp [addResult]
  · exact truncateContent_length_le r.content
  · intro h
    exact truncateContent_of_gt r.content h
  · intro h
    exact truncateContent_of_le r.content h

/-- Witness for C2: the stored-unchanged case at a short content and the
truncation equation at a content one unit above the cap. -/
theorem addResult_content_truncation_witness :
    (addResult none sampleResultA "t").results.getLast? = some (storedResult sampleResultA)
    ∧ (storedResult sampleResultA).content = sampleResultA.content
    ∧ (storedResult bigResult).content =
        String.mk (bigResult.content.data.take MAX_CONTENT_LENGTH) ++
          "... (content truncated)" :=
  ⟨(addResult_content_truncation none sampleResultA "t").1,
   (addResult_content_truncation none sampleResultA "t").2.2.2 (by decide),
   (addResult_content_truncation none bigResult "t").2.2.1 (by
      show MAX_CONTENT_LENGTH < (List.replicate 100001 'a').length
      rw [List.length_replicate]
      unfold MAX_CONTENT_LENGTH
      omega)⟩

/-- Counterexample for C2 as stated: at a content one character above the
cap, the stored content has length `MAX_CONTENT_LENGTH + 23 = 100023`,
strictly above the 100,000-unit cap the claim asserts for stored content. -/
theorem content_cap_exceeded_counterexample :
    bigResult.content.length = MAX_CONTENT_LENGTH + 1
    ∧ (storedResult bigResult).content.length = MAX_CONTENT_LENGTH + 23
    ∧ MAX_CONTENT_LENGTH < (storedResult bigResult).content.length := by
  have hlen : bigResult.content.length = MAX_CONTENT_LENGTH + 1 := by
    show (List.replicate 100001 'a').length = MAX_CONTENT_LENGTH + 1
    rw [List.length_replicate]
    unfold MAX_CONTENT_LENGTH
    omega
  have hgt : MAX_CONTENT_LENGTH < bigResult.content.length := by
    rw [hlen]
    exact Nat.lt_succ_self _
  have hstored : (storedResult bigResult).content =
      String.mk (bigResult.content.data.take MAX_CONTENT_LENGTH) ++
        "... (content truncated)" :=
    (storedResult_content bigResult).trans (truncateContent_of_gt bigResult.content hgt)
  have h1 : (String.mk (bigResult.content.data.take MAX_CONTENT_LENGTH)).length
      = MAX_CONTENT_LENGTH := by
    show ((List.replicate 100001 'a').take MAX_CONTENT_LENGTH).length = MAX_CONTENT_LENGTH
    rw [List.take_replicate, List.length_replicate]
    unfold MAX_CONTENT_LENGTH
    omega
  have hslen : (storedResult bigResult).content.length = MAX_CONTENT_LENGTH + 23 := by
    rw [hstored, String.length_append, h1, marker_length]
  refine ⟨hlen, hslen, ?_⟩
  rw [hslen]
  unfold MAX_CONTENT_LENGTH
  omega

/-! ### Whitespace-normalization helper lemmas -/

/-- `dropWhile` is the identity on whitespace-free text. -/
lemma dropWhile_isJsWs_eq_self (cs : List Char) (h : ∀ c ∈ cs, isJsWs c = false) :
    cs.dropWhile isJsWs = cs := by
  cases cs with
  | nil => rfl
  | cons c rest =>
    rw [List.dropWhile_cons, h c (List.mem_cons_self c rest)]
    simp

/-- Collapsing whitespace runs is the identity on whitespace-free text. -/
lemma collapseWsAux_eq_self (cs : List Char) (h : ∀ c ∈ cs, isJsWs c = false) :
    ∀ b, collapseWsAux b cs = cs := by
  induction cs with
  | nil => intro b; rfl
  | cons c rest ih =>
    intro b
    show (if isJsWs c then _ else c :: collapseWsAux false rest) = c :: rest
    rw [h c (List.mem_cons_self c rest)]
    simp only [Bool.false_eq_true, if_false]
    rw [ih (fun d hd => h d (List.mem_cons_of_mem c hd)) false]

lemma collapseWs_eq_self (cs : List Char) (h : ∀ c ∈ cs, isJsWs c = false) :
    collapseWs cs = cs :=
  collapseWsAux_eq_self cs h false

/-- Trimming is the identity on whitespace-free text. -/
lemma trimWs_eq_self (cs : List Char) (h : ∀ c ∈ cs, isJsWs c = false) :
    trimWs cs = cs := by
  unfold trimWs
  rw [dropWhile_isJsWs_eq_self cs h,
    dropWhile_isJsWs_eq_self cs.reverse (fun c hc => h c (List.mem_reverse.mp hc)),
    List.reverse_reverse]

/-- A text with `k` whitespace-delimited words has at least `2k - 1`
characters: each word is nonempty and consecutive words are separated.  The
two conjuncts are the mutual invariants for the two flag states. -/
lemma countWordRunsAux_le (cs : List Char) :
    2 * countWordRunsAux false cs ≤ cs.length + 1
    ∧ 2 * countWordRunsAux true cs ≤ cs.length := by
  induction cs with
  | nil => simp [countWordRunsAux]
  | cons c rest ih =>
    by_cases hw : isJsWs c
    · constructor
      · show 2 * (if isJsWs c then countWordRunsAux false rest
            else (if false then 0 else 1) + countWordRunsAux true rest) ≤ _
        rw [if_pos hw]
        have := ih.1
        simp only [List.length_cons]
        omega
      · show 2 * (if isJsWs c then countWordRunsAux false rest
            else (if true then 0 else 1) + countWordRunsAux true rest) ≤ _
        rw [if_pos hw]
        have := ih.1
        simp only [List.length_cons]
        omega
    · constructor
      · show 2 * (if isJsWs c then countWordRunsAux false rest
            else (if false then 0 else 1) + countWordRunsAux true rest) ≤ _
        rw [if_neg hw, show (if false then (0 : Nat) else 1) = 1 from rfl]
        have := ih.2
        simp only [List.length_cons]
        omega
      · show 2 * (if isJsWs c then countWordRunsAux false rest
            else (if true then 0 else 1) + countWordRunsAux true rest) ≤ _
        rw [if_neg hw, show (if true then (0 : Nat) else 1) = 0 from rfl]
        have := ih.2
        simp only [List.length_cons]
        omega

lemma two_mul_countWordRuns_le (cs : List Char) :
    2 * countWordRuns cs ≤ cs.length + 1 :=
  (countWordRunsAux_le cs).1

/-- Inside a word of `'a'`s, no further word is counted. -/
lemma countWordRunsAux_replicate (n : Nat) :
    countWordRunsAux true (List.replicate n 'a') = 0 := by
  induction n with
  | zero => rfl
  | succ n ih =>
    rw [List.replicate_succ]
    show (if isJsWs 'a' then countWordRunsAux false (List.replicate n 'a')
        else (if true then 0 else 1) + countWordRunsAux true (List.replicate n 'a')) = 0
    rw [if_neg (by decide)]
    simp [ih]

/-- C4 (amended): on a loaded page with no bot-challenge marker and no
suspicious title, `safePageNavigation` fails with the insufficient-content
error exactly when the whitespace-normalized visible text is shorter than
1000 *characters* (not words); it succeeds exactly when the normalized text
has at least 1000 characters, and in particular any page with at least 1000
visible words succeeds. -/
theorem navigation_content_gate (p : PageEnv)
    (hgoto : gotoCheck p.gotoOutcome = .ok ())
    (hbot : hasBotProtection p = false)
    (htitle : hasSuspiciousTitle p = false) :
    (safePageNavigation p =
        .error ("Navigation failed: " ++ "Page appears to be empty or has no meaningful content")
      ↔ (meaningfulTextOf p).length < 1000)
    ∧ (safePageNavigation p = .ok () ↔ 1000 ≤ (meaningfulTextOf p).length)
    ∧ (1000 ≤ wordCount (meaningfulTextOf p) → safePageNavigation p = .ok ()) := by
  have hmsg : strContains "Page appears to be empty or has no meaningful content" "timeout"
      = false := by decide
  have hpipe : navPipeline p = contentChecks p := by
    unfold navPipeline
    rw [hgoto]
  have hwords : 1000 ≤ wordCount (meaningfulTextOf p) →
      1000 ≤ (meaningfulTextOf p).length := by
    intro hwc
    have hb := two_mul_countWordRuns_le (meaningfulTextOf p).data
    have hlen : (meaningfulTextOf p).length = (meaningfulTextOf p).data.length := rfl
    have hwc' : wordCount (meaningfulTextOf p) = countWordRuns (meaningfulTextOf p).data := rfl
    omega
  by_cases hlen : (meaningfulTextOf p).length < 1000
  · have hcc : contentChecks p =
        .error "Page appears to be empty or has no meaningful content" := by
      unfold contentChecks
      rw [hbot]
      rw [if_neg (by simp), if_pos (Or.inr hlen)]
    have hsafe : safePageNavigation p =
        .error ("Navigation failed: " ++ "Page appears to be empty or has no meaningful content") := by
      unfold safePageNavigation
      rw [hpipe, hcc]
      simp [hmsg]
    refine ⟨⟨fun _ => hlen, fun _ => hsafe⟩, ?_, ?_⟩
    · constructor
      · intro h
        rw [hsafe] at h
        cases h
      · intro h
        omega
    · intro hwc
      have := hwords hwc
      omega
  · have hne : meaningfulTextOf p ≠ "" := by
      intro he
      rw [he] at hlen
      have : ("" : String).length = 0 := by decide
      omega
    have hcc : contentChecks p = .ok () := by
      unfold contentChecks
      rw [hbot]
      rw [if_neg (by simp), if_neg (by rintro (he | hl); exact hne he; omega), htitle]
      rw [if_neg (by simp)]
    have hsafe : safePageNavigation p = .ok () := by
      unfold safePageNavigation
      rw [hpipe, hcc]
    refine ⟨?_, ⟨fun _ => by omega, fun _ => hsafe⟩, fun _ => hsafe⟩
    constructor
    · intro h
      rw [hsafe] at h
      cases h
    · intro h
      omega

/-- Witness for C4: at a loaded page with an empty body, the gate fires; the
three characterizations hold at that page. -/
theorem navigation_content_gate_witness :
    (safePageNavigation emptyBodyPage =
        .error ("Navigation failed: " ++ "Page appears to be empty or has no meaningful content")
      ↔ (meaningfulTextOf emptyBodyPage).length < 1000)
    ∧ (safePageNavigation emptyBodyPage = .ok ()
      ↔ 1000 ≤ (meaningfulTextOf emptyBodyPage).length)
    ∧ (1000 ≤ wordCount (meaningfulTextOf emptyBodyPage) →
        safePageNavigation emptyBodyPage = .ok ()) :=
  navigation_content_gate emptyBodyPage (by decide) (by decide) (by decide)

/-- Counterexample for C4 as stated: a loaded page whose visible text is a
single 1000-character word has a word count of 1 — far below the claimed
1000-word minimum — yet `safePageNavigation` succeeds, because the source
compares `meaningfulText.length` (characters), not words. -/
theorem word_threshold_counterexample :
    gotoCheck longWordPage.gotoOutcome = .ok ()
    ∧ hasBotProtection longWordPage = false
    ∧ hasSuspiciousTitle longWordPage = false
    ∧ wordCount (meaningfulTextOf longWordPage) = 1
    ∧ safePageNavigation longWordPage = .ok () := by
  have hnows : ∀ c ∈ List.replicate 1000 'a', isJsWs c = false := by
    intro c hc
    rw [List.eq_of_mem_replicate hc]
    decide
  have hmt : meaningfulTextOf longWordPage = String.mk (List.replicate 1000 'a') := by
    show normalizeWs (joinSpace [if ("P" : String) = "SCRIPT" ∨ ("P" : String) = "STYLE"
        ∨ ("P" : String) = "NOSCRIPT" then "" else String.mk (List.replicate 1000 'a')]) = _
    rw [if_neg (by decide)]
    show normalizeWs (String.mk (List.replicate 1000 'a')) = _
    unfold normalizeWs
    show String.mk (trimWs (collapseWs (List.replicate 1000 'a'))) = _
    rw [collapseWs_eq_self _ hnows, trimWs_eq_self _ hnows]
  have hlen : (meaningfulTextOf longWordPage).length = 1000 := by
    rw [hmt]
    show (List.replicate 1000 'a').length = 1000
    rw [List.length_replicate]
  have hwc : wordCount (meaningfulTextOf longWordPage) = 1 := by
    rw [hmt]
    show countWordRunsAux false (List.replicate 1000 'a') = 1
    rw [show (1000 : Nat) = 999 + 1 from rfl, List.replicate_succ]
    show (if isJsWs 'a' then countWordRunsAux false (List.replicate 999 'a')
        else (if false then 0 else 1) + countWordRunsAux true (List.replicate 999 'a')) = 1
    rw [if_neg (by decide), show (if false then (0 : Nat) else 1) = 1 from rfl,
      countWordRunsAux_replicate 999]
  have hne : meaningfulTextOf longWordPage ≠ "" := by
    intro he
    rw [he] at hlen
    have : ("" : String).length = 0 := by decide
    omega
  have hbot : hasBotProtection longWordPage = false := by decide
  have htitle : hasSuspiciousTitle longWordPage = false := by decide
  have hgoto : gotoCheck longWordPage.gotoOutcome = .ok () := by decide
  refine ⟨hgoto, hbot, htitle, hwc, ?_⟩
  have hcc : contentChecks longWordPage = .ok () := by
    unfold contentChecks
    rw [hbot]
    rw [if_neg (by simp), if_neg (by rintro (he | hl); exact hne he; omega), htitle]
    rw [if_neg (by simp)]
  unfold safePageNavigation
  rw [show navPipeline longWordPage = contentChecks longWordPage from by
    unfold navPipeline; rw [hgoto], hcc]

/-- C6 (amended): `safePageNavigation` swallows exactly the failures whose
error message contains the substring "timeout" — this includes every
navigation timeout, but also any other pipeline failure whose message
happens to contain "timeout"; only failures whose message lacks the
substring are re-raised, wrapped as `Navigation failed: ...`. -/
theorem navigation_timeout_swallowed (p : PageEnv) :
    (p.gotoOutcome = .timeout → safePageNavigation p = .ok ())
    ∧ (∀ m, navPipeline p = .error m →
        (strContains m "timeout" = true → safePageNavigation p = .ok ())
        ∧ (strContains m "timeout" = false →
            safePageNavigation p = .error ("Navigation failed: " ++ m))) := by
  constructor
  · intro h
    have hpipe : navPipeline p = .error "Navigation timeout of 15000 ms exceeded" := by
      unfold navPipeline
      rw [h]
      rfl
    unfold safePageNavigation
    rw [hpipe]
    simp [show strContains "Navigation timeout of 15000 ms exceeded" "timeout" = true
      from by decide]
  · intro m hm
    constructor
    · intro ht
      unfold safePageNavigation
      rw [hm]
      simp [ht]
    · intro hf
      unfold safePageNavigation
      rw [hm]
      simp [hf]

/-- Witness for C6: a timed-out navigation returns success, and a pipeline
failure without "timeout" in its message is raised wrapped. -/
theorem navigation_timeout_swallowed_witness :
    safePageNavigation timeoutPage = .ok ()
    ∧ safePageNavigation emptyBodyPage =
        .error ("Navigation failed: " ++ "Page appears to be empty or has no meaningful content") :=
  ⟨(navigation_timeout_swallowed timeoutPage).1 rfl,
   ((navigation_timeout_swallowed emptyBodyPage).2
      "Page appears to be empty or has no meaningful content" (by decide)).2 (by decide)⟩

/-- Counterexample for C6 as stated: an HTTP 504 response whose status text
is "Gateway timeout" is not a navigation timeout, yet `safePageNavigation`
returns success instead of raising it, because the catch block matches the
substring "timeout" in any error message. -/
theorem http_timeout_text_swallow_counterexample :
    gatewayTimeoutPage.gotoOutcome ≠ GotoOutcome.timeout
    ∧ navPipeline gatewayTimeoutPage = .error "HTTP 504: Gateway timeout"
    ∧ safePageNavigation gatewayTimeoutPage = .ok () := by
  refine ⟨by decide, ?_, ?_⟩
  · decide
  · decide

/-- C7: on every loaded page (non-failing initial navigation) whose DOM
contains a node with id `cf-challenge-running`, `safePageNavigation` fails
with the bot-protection error, regardless of the page's visible word count
or title. -/
theorem navigation_cf_challenge_bot_error (p : PageEnv)
    (hgoto : gotoCheck p.gotoOutcome = .ok ())
    (hid : "cf-challenge-running" ∈ p.ids) :
    safePageNavigation p =
      .error ("Navigation failed: " ++
        "Bot protection detected (Cloudflare or similar service)") := by
  have hbot : hasBotProtection p = true := by
    unfold hasBotProtection
    rw [List.any_eq_true]
    exact ⟨"cf-challenge-running", by decide, List.elem_eq_true_of_mem hid⟩
  have hcc : contentChecks p =
      .error "Bot protection detected (Cloudflare or similar service)" := by
    unfold contentChecks
    rw [hbot]
    rw [if_pos rfl]
  have hpipe : navPipeline p = contentChecks p := by
    unfold navPipeline
    rw [hgoto]
  unfold safePageNavigation
  rw [hpipe, hcc]
  simp [show strContains "Bot protection detected (Cloudflare or similar service)" "timeout"
    = false from by decide]

/-- Witness for C7: a loaded page carrying the `cf-challenge-running` marker
fails with the bot-protection error. -/
theorem navigation_cf_challenge_bot_error_witness :
    safePageNavigation cfChallengePage =
      .error ("Navigation failed: " ++
        "Bot protection detected (Cloudflare or similar service)") :=
  navigation_cf_challenge_bot_error cfChallengePage (by decide) (by decide)

/-! ### Screenshot-resource indexing lemmas -/

/-- The position of the `i`-th screenshot-bearing result is inside the full
list. -/
lemma shotPos_lt_length :
    ∀ (rs : List ResearchResult) (i : Nat), i < (listedShots rs).length →
      shotPos rs i < rs.length := by
  intro rs
  induction rs with
  | nil =>
    intro i h
    simp [listedShots] at h
  | cons r rest ih =>
    intro i h
    by_cases hr : hasShot r
    · match i with
      | 0 =>
        simp [shotPos, hr]
      | i' + 1 =>
        have h' : i' < (listedShots rest).length := by
          simp only [listedShots, List.filter_cons, hr, if_true, List.length_cons] at h
          show i' < (List.filter hasShot rest).length
          omega
        simp only [shotPos, hr, if_true, List.length_cons]
        exact Nat.succ_lt_succ (ih i' h')
    · have h' : i < (listedShots rest).length := by
        simpa only [listedShots, List.filter_cons, hr, Bool.false_eq_true, if_false] using h
      simp only [shotPos, hr, Bool.false_eq_true, if_false, List.length_cons]
      exact Nat.succ_lt_succ (ih i h')

/-- The result the listing advertises at URI index `i` is the one at
position `shotPos rs i` of the full list. -/
lemma shotPos_getElem :
    ∀ (rs : List ResearchResult) (i : Nat), i < (listedShots rs).length →
      rs[shotPos rs i]? = (listedShots rs)[i]? := by
  intro rs
  induction rs with
  | nil =>
    intro i h
    simp [listedShots] at h
  | cons r rest ih =>
    intro i h
    by_cases hr : hasShot r
    · match i with
      | 0 =>
        simp [shotPos, listedShots, List.filter_cons, hr]
      | i' + 1 =>
        have h' : i' < (listedShots rest).length := by
          simp only [listedShots, List.filter_cons, hr, if_true, List.length_cons] at h
          show i' < (List.filter hasShot rest).length
          omega
        simp only [shotPos, listedShots, List.filter_cons, hr, if_true,
          List.getElem?_cons_succ]
        exact ih i' h'
    · have h' : i < (listedShots rest).length := by
        simpa only [listedShots, List.filter_cons, hr, Bool.false_eq_true, if_false] using h
      simp only [shotPos, listedShots, List.filter_cons, hr, Bool.false_eq_true, if_false,
        List.getElem?_cons_succ]
      exact ih i h'

/-- The listing index never exceeds the full-list position of its target. -/
lemma le_shotPos :
    ∀ (rs : List ResearchResult) (i : Nat), i < (listedShots rs).length →
      i ≤ shotPos rs i := by
  intro rs
  induction rs with
  | nil =>
    intro i h
    simp [listedShots] at h
  | cons r rest ih =>
    intro i h
    by_cases hr : hasShot r
    · match i with
      | 0 => exact Nat.zero_le _
      | i' + 1 =>
        have h' : i' < (listedShots rest).length := by
          simp only [listedShots, List.filter_cons, hr, if_true, List.length_cons] at h
          show i' < (List.filter hasShot rest).length
          omega
        simp only [shotPos, hr, if_true]
        exact Nat.succ_le_succ (ih i' h')
    · have h' : i < (listedShots rest).length := by
        simpa only [listedShots, List.filter_cons, hr, Bool.false_eq_true, if_false] using h
      simp only [shotPos, hr, Bool.false_eq_true, if_false]
      exact Nat.le_succ_of_le (ih i h')

/-- The listing index and the full-list position agree exactly when every
result before the target has a screenshot. -/
lemma shotPos_eq_iff_all :
    ∀ (rs : List ResearchResult) (i : Nat), i < (listedShots rs).length →
      (((rs.take (shotPos rs i)).all hasShot = true) ↔ shotPos rs i = i) := by
  intro rs
  induction rs with
  | nil =>
    intro i h
    simp [listedShots] at h
  | cons r rest ih =>
    intro i h
    by_cases hr : hasShot r
    · match i with
      | 0 =>
        simp [shotPos, hr]
      | i' + 1 =>
        have h' : i' < (listedShots rest).length := by
          simp only [listedShots, List.filter_cons, hr, if_true, List.length_cons] at h
          show i' < (List.filter hasShot rest).length
          omega
        have hsp : shotPos (r :: rest) (i' + 1) = shotPos rest i' + 1 := by
          simp [shotPos, hr]
        rw [hsp, List.take_succ_cons, List.all_cons, Bool.and_eq_true]
        constructor
        · intro hall
          have := (ih i' h').mp hall.2
          omega
        · intro heq
          have heq' : shotPos rest i' = i' := by omega
          exact ⟨hr, (ih i' h').mpr heq'⟩
    · have h' : i < (listedShots rest).length := by
        simpa only [listedShots, List.filter_cons, hr, Bool.false_eq_true, if_false] using h
      have hle : i ≤ shotPos rest i := le_shotPos rest i h'
      have hsp : shotPos (r :: rest) i = shotPos rest i + 1 := by
        simp [shotPos, hr]
      rw [hsp, List.take_succ_cons, List.all_cons]
      constructor
      · intro hall
        rw [Bool.and_eq_true] at hall
        exact absurd hall.1 hr
      · intro heq
        omega

/-- C9: in a session where some result without a screenshot precedes the
screenshot-bearing result advertised at URI index `i` (the listing numbers
only the filtered screenshot-bearing results), the read handler — which
indexes the full results list — resolves index `i` to a different position
than the advertised result's: either the result at index `i` has no
screenshot and the read errors with the no-screenshot message, or it has one
and the read returns that other result's screenshot.  The index and the
advertised position agree exactly when every earlier result also has a
screenshot. -/
theorem screenshot_listing_read_mismatch (s : ResearchSession) (i : Nat)
    (h : i < (listedShots s.results).length)
    (hmiss : (s.results.take (shotPos s.results i)).all hasShot = false) :
    i < shotPos s.results i
    ∧ s.results[shotPos s.results i]? = (listedShots s.results)[i]?
    ∧ (readScreenshot (some s) i = .error .noScreenshot
       ∨ ∃ r shot, s.results[i]? = some r ∧ r.screenshot = some shot
           ∧ readScreenshot (some s) i = .ok shot) := by
  have hne : shotPos s.results i ≠ i := by
    intro heq
    rw [(shotPos_eq_iff_all s.results i h).mpr heq] at hmiss
    cases hmiss
  have hlt : i < shotPos s.results i :=
    lt_of_le_of_ne (le_shotPos s.results i h) (fun e => hne e.symm)
  have hi : i < s.results.length := lt_trans hlt (shotPos_lt_length s.results i h)
  refine ⟨hlt, shotPos_getElem s.results i h, ?_⟩
  have hread : readScreenshot (some s) i =
      match (s.results.get ⟨i, hi⟩).screenshot with
      | some shot => Except.ok shot
      | none => Except.error ReadShotError.noScreenshot := by
    unfold readScreenshot
    exact dif_pos hi
  cases hshot : (s.results.get ⟨i, hi⟩).screenshot with
  | none =>
    left
    rw [hread, hshot]
  | some shot =>
    right
    refine ⟨s.results.get ⟨i, hi⟩, shot, ?_, hshot, ?_⟩
    · rw [List.getElem?_eq_getElem hi]
      rfl
    · rw [hread, hshot]

/-- Witness for C9: in a two-result session whose first result lacks a
screenshot, listed URI 0 advertises the second result (position 1), but
reading index 0 hits the first result and errors. -/
theorem screenshot_listing_read_mismatch_witness :
    0 < shotPos mixedSession.results 0
    ∧ mixedSession.results[shotPos mixedSession.results 0]? =
        (listedShots mixedSession.results)[0]?
    ∧ (readScreenshot (some mixedSession) 0 = .error .noScreenshot
       ∨ ∃ r shot, mixedSession.results[0]? = some r ∧ r.screenshot = some shot
           ∧ readScreenshot (some mixedSession) 0 = .ok shot) :=
  screenshot_listing_read_mismatch mixedSession 0 (by decide) (by decide)

end WebResearch
